import Mathlib

/-!
Shallow embedding of `chain/client/src/stateless_validation/shadow_validate.rs`:
the shadow chunk validation orchestration (`Client::shadow_validate_block_chunks`
and `Client::shadow_validate_chunk`).  External collaborators (chain storage,
transaction preparation, witness construction, the witness codec, pre- and full
validation, the latest-witness store and the configuration flags) are modelled
as an explicit environment of total functions returning `Except`, and every
observable side effect (metric increments, histogram observations, storage
fetches, save attempts, spawned worker-pool tasks, error log lines) is recorded
in an explicit effect log.  Rust `.unwrap()` panics are modelled by a dedicated
`panicked` outcome.
-/

namespace ShadowValidate

/-- Opaque block hash (`CryptoHash`). -/
abbrev Hash := Nat

/-- Opaque chunk hash (`ChunkHash`). -/
abbrev ChunkHash := Nat

/-- Shard identifier (`ShardId`, a `u64` in the source). -/
abbrev ShardId := Nat

/-- Opaque state root (`StateRoot`). -/
abbrev StateRoot := Nat

/-- Opaque transaction (`SignedTransaction`); only its identity matters here. -/
abbrev Transaction := Nat

/-- `near_chain_primitives::Error`, abstracted: the orchestration code only
constructs `Error::Other(..)` itself; every other error value flows through it
opaquely from a collaborator, modelled by `notFound` / `ext`. -/
inductive Error where
  | notFound
  | other (msg : String)
  | ext (code : Nat)
deriving DecidableEq, Repr

/-- `BlockHeader`: height, hash and previous-block hash (the fields the
orchestration reads). -/
structure BlockHeader where
  height : Nat
  hash : Hash
  prev_hash : Hash
deriving DecidableEq, Repr

/-- `ShardChunkHeader`: the fields the orchestration reads.  `height_included`
backs `is_new_chunk` (spec §3: "a flag indicating whether it is new at a given
height"). -/
structure ShardChunkHeader where
  shard_id : ShardId
  chunk_hash : ChunkHash
  prev_state_root : StateRoot
  height_included : Nat
deriving DecidableEq, Repr

/-- `ShardChunkHeader::is_new_chunk(block_height)`: the chunk is newly produced
at the given block height (as opposed to a carried-over placeholder). -/
def ShardChunkHeader.is_new_chunk (h : ShardChunkHeader) (block_height : Nat) : Bool :=
  h.height_included == block_height

/-- `Block`: a header plus the ordered-by-shard list of chunk headers. -/
structure Block where
  header : BlockHeader
  chunks : List ShardChunkHeader
deriving DecidableEq, Repr

/-- `ShardChunk`: full chunk body — header plus transactions. -/
structure ShardChunk where
  header : ShardChunkHeader
  transactions : List Transaction
deriving DecidableEq, Repr

/-- `ShardChunk::shard_id()`. -/
def ShardChunk.shard_id (c : ShardChunk) : ShardId := c.header.shard_id

/-- `ShardChunk::chunk_hash()`. -/
def ShardChunk.chunk_hash (c : ShardChunk) : ChunkHash := c.header.chunk_hash

/-- `ShardChunk::cloned_header()`. -/
def ShardChunk.cloned_header (c : ShardChunk) : ShardChunkHeader := c.header

/-- `near_chain::types::StorageDataSource`.  The `Recorded` variant carries a
partial-storage payload in the source; it is never constructed here, so the
payload is elided. -/
inductive StorageDataSource where
  | Db
  | Recorded
deriving DecidableEq, Repr

/-- `near_chain::types::RuntimeStorageConfig`.  The state patch
(`SandboxStatePatch`) is modelled as an association list; `Default::default()`
is the empty patch. -/
structure RuntimeStorageConfig where
  state_root : StateRoot
  use_flat_storage : Bool
  source : StorageDataSource
  state_patch : List (Nat × Nat)
deriving DecidableEq, Repr

/-- `AccountId`: a validated account-identifier string. -/
structure AccountId where
  name : String
deriving DecidableEq, Repr

/-- Opaque storage proof (`PartialState`). -/
structure StorageProof where
  data : Nat
deriving DecidableEq, Repr

/-- Result of `validate_prepared_transactions`: the validated transactions
together with the storage proof recorded while preparing them. -/
structure ValidatedTransactions where
  storage_proof : StorageProof
  transactions : List Transaction
deriving DecidableEq, Repr

/-- `ChunkStateWitness`: the artifact assembled by `create_state_witness` —
producer identity, previous block header, previous chunk header, the chunk and
the transaction storage proof. -/
structure ChunkStateWitness where
  producer : AccountId
  prev_block_header : BlockHeader
  prev_chunk_header : ShardChunkHeader
  chunk : ShardChunk
  storage_proof : StorageProof
deriving DecidableEq, Repr

/-- `EncodedChunkStateWitness`: serialized byte form of a witness. -/
structure EncodedChunkStateWitness where
  bytes : List Nat
deriving DecidableEq, Repr

/-- Opaque result of `pre_validate_chunk_state_witness`. -/
structure PreValidationResult where
  tag : Nat
deriving DecidableEq, Repr

/-- A task handed to `rayon::spawn` for asynchronous full validation: the
witness, its pre-validation result, and the shard/chunk identity captured for
logging. -/
structure SpawnedTask where
  witness : ChunkStateWitness
  pre_validation : PreValidationResult
  shard_id : ShardId
  chunk_hash : ChunkHash
deriving DecidableEq, Repr

/-- Effect log of one call: metric increments, histogram observations, storage
accesses, save attempts, spawned tasks and error log lines, in call order. -/
structure Effects where
  /-- increments of `SHADOW_CHUNK_VALIDATION_FAILED_TOTAL` -/
  failedTotal : Nat := 0
  /-- shard labels observed by `CHUNK_STATE_WITNESS_ENCODE_TIME` -/
  encodeObserved : List ShardId := []
  /-- shard labels observed by `CHUNK_STATE_WITNESS_DECODE_TIME` -/
  decodeObserved : List ShardId := []
  /-- calls of `record_witness_size_metrics` -/
  witnessSizeRecords : Nat := 0
  /-- arguments of `get_block` calls -/
  blockFetches : List Hash := []
  /-- arguments of `get_chunk_clone_from_header` calls -/
  headerFetches : List ShardChunkHeader := []
  /-- arguments of `get_chunk` calls -/
  chunkFetches : List ChunkHash := []
  /-- storage configs passed to `validate_prepared_transactions` -/
  txValidationConfigs : List RuntimeStorageConfig := []
  /-- producer accounts passed to `create_state_witness` -/
  witnessProducers : List AccountId := []
  /-- witnesses passed to `save_latest_chunk_state_witness` -/
  saveAttempts : List ChunkStateWitness := []
  /-- tasks submitted to the worker pool by `rayon::spawn` -/
  spawned : List SpawnedTask := []
  /-- shard ids of "shadow chunk validation failed" error log lines -/
  errorLogs : List ShardId := []
deriving DecidableEq, Repr

/-- The empty effect log. -/
def Effects.init : Effects := {}

/-- Sequential composition of two effect logs. -/
def Effects.append (a b : Effects) : Effects where
  failedTotal := a.failedTotal + b.failedTotal
  encodeObserved := a.encodeObserved ++ b.encodeObserved
  decodeObserved := a.decodeObserved ++ b.decodeObserved
  witnessSizeRecords := a.witnessSizeRecords + b.witnessSizeRecords
  blockFetches := a.blockFetches ++ b.blockFetches
  headerFetches := a.headerFetches ++ b.headerFetches
  chunkFetches := a.chunkFetches ++ b.chunkFetches
  txValidationConfigs := a.txValidationConfigs ++ b.txValidationConfigs
  witnessProducers := a.witnessProducers ++ b.witnessProducers
  saveAttempts := a.saveAttempts ++ b.saveAttempts
  spawned := a.spawned ++ b.spawned
  errorLogs := a.errorLogs ++ b.errorLogs

/-- Outcome of a call: normal return `Ok(())`, an error return `Err(e)`, or a
Rust panic (from `.unwrap()`). -/
inductive RunResult where
  | ok
  | err (e : Error)
  | panicked (msg : String)
deriving DecidableEq, Repr

/-- The environment of external collaborators (spec §6) and configuration:
chain storage, transaction preparation, witness construction, the codec,
pre validation and full validation, the latest-witness store, the `save_latest_witnesses`
config flag and the `shadow_chunk_validation` compile-time feature. -/
structure Env where
  getBlock : Hash → Except Error Block
  getChunkCloneFromHeader : ShardChunkHeader → Except Error ShardChunk
  getChunk : ChunkHash → Except Error ShardChunk
  validate_prepared_transactions :
    ShardChunkHeader → RuntimeStorageConfig → List Transaction → List Transaction →
      Except Error ValidatedTransactions
  create_state_witness :
    AccountId → BlockHeader → ShardChunkHeader → ShardChunk → StorageProof →
      Except Error ChunkStateWitness
  save_latest_chunk_state_witness : ChunkStateWitness → Except Error Unit
  encode : ChunkStateWitness → Except Error (EncodedChunkStateWitness × Nat)
  decode : EncodedChunkStateWitness → Except Error ChunkStateWitness
  pre_validate_chunk_state_witness : ChunkStateWitness → Except Error PreValidationResult
  validate_chunk_state_witness : ChunkStateWitness → PreValidationResult → Except Error Unit
  save_latest_witnesses : Bool
  shadow_chunk_validation : Bool

/-- Is the character allowed as a non-separator account-id character
(lowercase ASCII letter or digit)? -/
def isAccountChar (c : Char) : Bool := c.isLower || c.isDigit

/-- Is the character an account-id separator? -/
def isAccountSeparator (c : Char) : Bool := c == '.' || c == '-' || c == '_'

/-- No two adjacent separator characters. -/
def noAdjacentSeparators : List Char → Bool
  | c :: d :: rest => !(isAccountSeparator c && isAccountSeparator d) && noAdjacentSeparators (d :: rest)
  | _ => true

/-- Modelled from the spec: the `AccountId` string validator of
`near_primitives` (invoked by `"alice.near".parse()`), which is not part of the
orchestration source under scrutiny; the spec (§4.4, §9) only says the producer
identity is a parsed literal placeholder with potential parsing-failure modes.
NEAR account-id validity: length between 2 and 64, characters drawn from
lowercase letters, digits and the separators `.` `-` `_`, first and last
character non-separator, and no two separators adjacent. -/
def isValidAccountId (s : String) : Bool :=
  let cs := s.toList
  decide (2 ≤ cs.length) && decide (cs.length ≤ 64) &&
  cs.all (fun c => isAccountChar c || isAccountSeparator c) &&
  (match cs.head? with
   | some c => isAccountChar c
   | none => false) &&
  (match cs.getLast? with
   | some c => isAccountChar c
   | none => false) &&
  noAdjacentSeparators cs

/-- `str::parse::<AccountId>()`: `Ok` exactly on valid account-id strings. -/
def parseAccountId (s : String) : Option AccountId :=
  if isValidAccountId s then some { name := s } else none

/-- Panic message of `Option::unwrap` on `None`. -/
def unwrapNoneMsg : String := "called Option::unwrap on a None value"

/-- Shallow embedding of `Client::shadow_validate_chunk`
(`shadow_validate.rs` lines 47–159).  Returns the call outcome together with
the effect log of this single chunk attempt. -/
def shadow_validate_chunk (env : Env) (prev_block_header : BlockHeader)
    (prev_chunk_header : ShardChunkHeader) (chunk : ShardChunk) :
    RunResult × Effects :=
  let shard_id := chunk.shard_id
  let chunk_header := chunk.cloned_header
  -- let last_chunk = self.chain.get_chunk(&prev_chunk_header.chunk_hash())?;
  let eff : Effects := { chunkFetches := [prev_chunk_header.chunk_hash] }
  match env.getChunk prev_chunk_header.chunk_hash with
  | .error e => (.err e, eff)
  | .ok last_chunk =>
    let transactions_validation_storage_config : RuntimeStorageConfig :=
      { state_root := chunk_header.prev_state_root
        use_flat_storage := true
        source := StorageDataSource.Db
        state_patch := [] }
    let eff := { eff with
      txValidationConfigs := eff.txValidationConfigs ++ [transactions_validation_storage_config] }
    match env.validate_prepared_transactions chunk_header
        transactions_validation_storage_config chunk.transactions last_chunk.transactions with
    | .error _ =>
        (.err (.other "Could not produce storage proof for new transactions"), eff)
    | .ok validated_transactions =>
      -- "alice.near".parse().unwrap()
      match parseAccountId "alice.near" with
      | none => (.panicked unwrapNoneMsg, eff)
      | some producer =>
        let eff := { eff with witnessProducers := eff.witnessProducers ++ [producer] }
        match env.create_state_witness producer prev_block_header prev_chunk_header chunk
            validated_transactions.storage_proof with
        | .error e => (.err e, eff)
        | .ok witness =>
          let eff := if env.save_latest_witnesses
            then { eff with saveAttempts := eff.saveAttempts ++ [witness] } else eff
          let saveResult : Except Error Unit :=
            if env.save_latest_witnesses
            then env.save_latest_chunk_state_witness witness else .ok ()
          match saveResult with
          | .error e => (.err e, eff)
          | .ok _ =>
            match env.encode witness with
            | .error e => (.err e, eff)
            | .ok (encoded_witness, _raw_witness_size) =>
              let eff := { eff with
                encodeObserved := eff.encodeObserved ++ [shard_id]
                witnessSizeRecords := eff.witnessSizeRecords + 1 }
              match env.decode encoded_witness with
              | .error e => (.err e, eff)
              | .ok _decoded =>
                let eff := { eff with decodeObserved := eff.decodeObserved ++ [shard_id] }
                match env.pre_validate_chunk_state_witness witness with
                | .error e => (.err e, eff)
                | .ok pre_validation_result =>
                  let eff := { eff with spawned := eff.spawned ++
                    [{ witness := witness
                       pre_validation := pre_validation_result
                       shard_id := shard_id
                       chunk_hash := chunk.chunk_hash }] }
                  (.ok, eff)

/-- The body of the `rayon::spawn` closure (lines 128–157): asynchronous full
validation; on failure it increments the failure counter and logs. -/
def runSpawnedTask (env : Env) (t : SpawnedTask) : Effects :=
  match env.validate_chunk_state_witness t.witness t.pre_validation with
  | .ok _ => {}
  | .error _ => { failedTotal := 1, errorLogs := [t.shard_id] }

/-- The per-chunk loop of `shadow_validate_block_chunks` (lines 26–43), over
the already-filtered list of new chunk headers, threading the effect log. -/
def shadow_validate_loop (env : Env) (prev_block : Block) :
    List ShardChunkHeader → Effects → RunResult × Effects
  | [], eff => (.ok, eff)
  | chunk_header :: rest, eff =>
    -- let chunk = self.chain.get_chunk_clone_from_header(chunk)?;
    let eff := { eff with headerFetches := eff.headerFetches ++ [chunk_header] }
    match env.getChunkCloneFromHeader chunk_header with
    | .error e => (.err e, eff)
    | .ok chunk =>
      -- let prev_chunk_header = prev_block_chunks.get(chunk.shard_id() as usize).unwrap();
      match prev_block.chunks[chunk.shard_id]? with
      | none => (.panicked unwrapNoneMsg, eff)
      | some prev_chunk_header =>
        let r := shadow_validate_chunk env prev_block.header prev_chunk_header chunk
        let eff := eff.append r.2
        match r.1 with
        | .ok => shadow_validate_loop env prev_block rest eff
        | .err _ =>
          -- metrics::SHADOW_CHUNK_VALIDATION_FAILED_TOTAL.inc(); tracing::error!(..)
          let eff := { eff with
            failedTotal := eff.failedTotal + 1
            errorLogs := eff.errorLogs ++ [chunk.shard_id] }
          shadow_validate_loop env prev_block rest eff
        | .panicked m => (.panicked m, eff)

/-- Shallow embedding of `Client::shadow_validate_block_chunks`
(`shadow_validate.rs` lines 18–45). -/
def shadow_validate_block_chunks (env : Env) (block : Block) : RunResult × Effects :=
  if !env.shadow_chunk_validation then (.ok, Effects.init)
  else
    -- let prev_block = self.chain.get_block(block.header().prev_hash())?;
    match env.getBlock block.header.prev_hash with
    | .error e => (.err e, { blockFetches := [block.header.prev_hash] })
    | .ok prev_block =>
      shadow_validate_loop env prev_block
        (block.chunks.filter (fun c => c.is_new_chunk block.header.height))
        { blockFetches := [block.header.prev_hash] }

/-! ## Concrete fixtures used by witnesses and counterexamples -/

/-- A chunk header of shard 0, new at height 5. -/
def hdr0 : ShardChunkHeader :=
  { shard_id := 0, chunk_hash := 10, prev_state_root := 100, height_included := 5 }

/-- A chunk header of shard 1, new at height 5. -/
def hdr1 : ShardChunkHeader :=
  { shard_id := 1, chunk_hash := 11, prev_state_root := 101, height_included := 5 }

/-- A carried-over chunk header of shard 1 (height included 4, not 5). -/
def hdrOld : ShardChunkHeader :=
  { shard_id := 1, chunk_hash := 12, prev_state_root := 102, height_included := 4 }

/-- Previous-block chunk header of shard 0. -/
def phdr0 : ShardChunkHeader :=
  { shard_id := 0, chunk_hash := 20, prev_state_root := 90, height_included := 4 }

/-- Previous-block chunk header of shard 1. -/
def phdr1 : ShardChunkHeader :=
  { shard_id := 1, chunk_hash := 21, prev_state_root := 91, height_included := 4 }

/-- The previous block (hash 1, height 4, two shards). -/
def prevBlock0 : Block :=
  { header := { height := 4, hash := 1, prev_hash := 0 }, chunks := [phdr0, phdr1] }

/-- The processed block (hash 2, height 5, two new chunks). -/
def block0 : Block :=
  { header := { height := 5, hash := 2, prev_hash := 1 }, chunks := [hdr0, hdr1] }

/-- Full chunk body for a header, with an empty transaction list. -/
def chunkOf (h : ShardChunkHeader) : ShardChunk := { header := h, transactions := [] }

/-- An arbitrary fixed witness, used as the decoded copy returned by the
fixture codec. -/
def decodedFixture : ChunkStateWitness :=
  { producer := { name := "bob" }
    prev_block_header := { height := 0, hash := 0, prev_hash := 0 }
    prev_chunk_header := phdr0
    chunk := chunkOf phdr0
    storage_proof := { data := 0 } }

/-- An environment in which every collaborator succeeds; the feature flag is
on and `save_latest_witnesses` is off. -/
def okEnv : Env where
  getBlock := fun _ => .ok prevBlock0
  getChunkCloneFromHeader := fun ch => .ok (chunkOf ch)
  getChunk := fun _ => .ok (chunkOf phdr0)
  validate_prepared_transactions := fun _ _ _ _ =>
    .ok { storage_proof := { data := 7 }, transactions := [] }
  create_state_witness := fun a pbh pch c sp =>
    .ok { producer := a, prev_block_header := pbh, prev_chunk_header := pch,
          chunk := c, storage_proof := sp }
  save_latest_chunk_state_witness := fun _ => .ok ()
  encode := fun _ => .ok ({ bytes := [0] }, 1)
  decode := fun _ => .ok decodedFixture
  pre_validate_chunk_state_witness := fun _ => .ok { tag := 0 }
  validate_chunk_state_witness := fun _ _ => .ok ()
  save_latest_witnesses := false
  shadow_chunk_validation := true

example : (shadow_validate_block_chunks okEnv block0).1 = .ok := by decide

example : ((shadow_validate_block_chunks okEnv block0).2.spawned.length) = 2 := by decide

example : parseAccountId "alice.near" = some { name := "alice.near" } := by decide

example : (shadow_validate_block_chunks okEnv block0).2.headerFetches = [hdr0, hdr1] := by
  decide

/-- A previous-block fetch failure fixture (feature on, `get_block` fails). -/
def envPrevBlockMissing : Env := { okEnv with getBlock := fun _ => .error .notFound }

/-- The witness that the happy fixture environment constructs for `hdr0`. -/
def wit0 : ChunkStateWitness :=
  { producer := { name := "alice.near" }
    prev_block_header := prevBlock0.header
    prev_chunk_header := phdr0
    chunk := chunkOf hdr0
    storage_proof := { data := 7 } }

/-- The task the happy fixture run spawns for `hdr0`. -/
def task0 : SpawnedTask :=
  { witness := wit0, pre_validation := { tag := 0 }, shard_id := 0, chunk_hash := 10 }

/-- Fixture: feature on, `save_latest_witnesses` on, and the latest-witness
save failing. -/
def envSaveFail : Env :=
  { okEnv with
    save_latest_witnesses := true
    save_latest_chunk_state_witness := fun _ => .error (.ext 7) }

/-- Fixture: as `envSaveFail` but with the save succeeding. -/
def envSaveOk : Env :=
  { envSaveFail with save_latest_chunk_state_witness := fun _ => .ok () }

/-- A previous block holding a single chunk header (shard 0 only). -/
def prevBlockSmall : Block :=
  { header := { height := 4, hash := 1, prev_hash := 0 }, chunks := [phdr0] }

/-- Fixture: the previous block has one chunk, so shard index 1 is absent. -/
def envShardGap : Env := { okEnv with getBlock := fun _ => .ok prevBlockSmall }

/-- A block whose single new chunk belongs to shard 1. -/
def blockShard1 : Block :=
  { header := { height := 5, hash := 2, prev_hash := 1 }, chunks := [hdr1] }

/-- Fixture: fetching the chunk body fails for shard 0 and succeeds
elsewhere. -/
def envChunk0Missing : Env :=
  { okEnv with getChunkCloneFromHeader := fun ch =>
      if ch.shard_id == 0 then .error .notFound else .ok (chunkOf ch) }

/-- Fixture: every collaborator succeeds except pre-validation. -/
def envPreValFail : Env :=
  { okEnv with pre_validate_chunk_state_witness := fun _ => .error (.ext 9) }

/-- A block with one chunk new at its height and one carried-over chunk. -/
def blockMixed : Block :=
  { header := { height := 5, hash := 2, prev_hash := 1 }, chunks := [hdr0, hdrOld] }

/-! ## Helper lemmas -/

/-- The account-id literal `"alice.near"` parses successfully. -/
lemma parseAccountId_alice : parseAccountId "alice.near" = some { name := "alice.near" } := by
  decide

/-! ## Claim theorems -/

/-- C9: when the program is compiled without the `shadow_chunk_validation`
feature, `shadow_validate_block_chunks` returns success immediately for every
block, with an empty effect log: no block or chunk fetches, no witness
construction, no metric increments, no save attempts and no worker-pool
tasks. -/
theorem feature_off_is_noop (env : Env) (block : Block) :
    shadow_validate_block_chunks { env with shadow_chunk_validation := false } block
      = (RunResult.ok, Effects.init) := by
  simp [shadow_validate_block_chunks]

/-- C2: if the previous block cannot be fetched from chain storage,
`shadow_validate_block_chunks` returns that typed error to its caller and the
effect log shows no chunk was shadow-validated: the only recorded effect is
the single failed previous-block fetch. -/
theorem prev_block_fetch_error_aborts_block (env : Env) (block : Block) (e : Error)
    (hf : env.shadow_chunk_validation = true)
    (h : env.getBlock block.header.prev_hash = .error e) :
    shadow_validate_block_chunks env block
      = (RunResult.err e, { blockFetches := [block.header.prev_hash] }) := by
  simp [shadow_validate_block_chunks, hf, h]

/-- Witness for C2 at a concrete environment and block. -/
theorem prev_block_fetch_error_aborts_block_witness :
    shadow_validate_block_chunks envPrevBlockMissing block0
      = (RunResult.err .notFound, { blockFetches := [1] }) :=
  prev_block_fetch_error_aborts_block envPrevBlockMissing block0 .notFound rfl rfl

/-- C7: every storage-read configuration passed to
`validate_prepared_transactions` during a chunk's shadow validation points at
that chunk's `prev_state_root`, uses flat storage, reads from the durable
database and carries the empty default state patch. -/
theorem tx_validation_storage_config_exact (env : Env) (pbh : BlockHeader)
    (pch : ShardChunkHeader) (chunk : ShardChunk) (cfg : RuntimeStorageConfig)
    (h : cfg ∈ (shadow_validate_chunk env pbh pch chunk).2.txValidationConfigs) :
    cfg = { state_root := chunk.cloned_header.prev_state_root
            use_flat_storage := true
            source := StorageDataSource.Db
            state_patch := [] } := by
  simp only [shadow_validate_chunk, parseAccountId_alice] at h
  repeat' split at h
  all_goals simp_all

/-- Witness for C7 at a concrete environment and chunk. -/
theorem tx_validation_storage_config_exact_witness :
    ({ state_root := 100, use_flat_storage := true, source := StorageDataSource.Db,
       state_patch := [] } : RuntimeStorageConfig)
      = { state_root := (chunkOf hdr0).cloned_header.prev_state_root
          use_flat_storage := true
          source := StorageDataSource.Db
          state_patch := [] } :=
  tx_validation_storage_config_exact okEnv prevBlock0.header phdr0 (chunkOf hdr0) _ (by decide)

/-- C3: a full-validation task is submitted to the worker pool only if the
synchronous pre-validation of the witness succeeded (every spawned task
carries a witness whose pre-validation returned exactly the task's
`PreValidationResult`), and if pre-validation rejects every witness, no task
is ever scheduled for that chunk. -/
theorem full_validation_gated_on_prevalidation :
    (∀ (env : Env) (pbh : BlockHeader) (pch : ShardChunkHeader) (chunk : ShardChunk)
       (t : SpawnedTask),
       t ∈ (shadow_validate_chunk env pbh pch chunk).2.spawned →
       env.pre_validate_chunk_state_witness t.witness = .ok t.pre_validation) ∧
    (∀ (env : Env) (pbh : BlockHeader) (pch : ShardChunkHeader) (chunk : ShardChunk)
       (e : Error),
       (∀ w, env.pre_validate_chunk_state_witness w = .error e) →
       (shadow_validate_chunk env pbh pch chunk).2.spawned = []) := by
  constructor
  · intro env pbh pch chunk t h
    simp only [shadow_validate_chunk, parseAccountId_alice] at h
    repeat' split at h
    all_goals simp_all
  · intro env pbh pch chunk e he
    simp only [shadow_validate_chunk, parseAccountId_alice]
    repeat' split
    all_goals simp_all

/-- Witness for C3 at a concrete environment and spawned task. -/
theorem full_validation_gated_on_prevalidation_witness :
    okEnv.pre_validate_chunk_state_witness task0.witness = .ok task0.pre_validation :=
  full_validation_gated_on_prevalidation.1 okEnv prevBlock0.header phdr0 (chunkOf hdr0) task0
    (by decide)

/-- C10: the placeholder producer identity is the literal `"alice.near"`;
parsing it always succeeds (so the `.unwrap()` on it cannot fire), every
producer handed to `create_state_witness` is exactly that account, and a
chunk's shadow validation never panics. -/
theorem placeholder_producer_identity_safe :
    parseAccountId "alice.near" = some { name := "alice.near" } ∧
    (∀ (env : Env) (pbh : BlockHeader) (pch : ShardChunkHeader) (chunk : ShardChunk)
       (a : AccountId),
       a ∈ (shadow_validate_chunk env pbh pch chunk).2.witnessProducers →
       a = { name := "alice.near" }) ∧
    (∀ (env : Env) (pbh : BlockHeader) (pch : ShardChunkHeader) (chunk : ShardChunk)
       (m : String),
       (shadow_validate_chunk env pbh pch chunk).1 ≠ RunResult.panicked m) := by
  refine ⟨parseAccountId_alice, ?_, ?_⟩
  · intro env pbh pch chunk a h
    simp only [shadow_validate_chunk, parseAccountId_alice] at h
    repeat' split at h
    all_goals simp_all
  · intro env pbh pch chunk m
    simp only [shadow_validate_chunk, parseAccountId_alice]
    repeat' split
    all_goals simp

/-- Witness for C10 at a concrete environment and chunk. -/
theorem placeholder_producer_identity_safe_witness :
    ({ name := "alice.near" } : AccountId) = { name := "alice.near" } ∧
    (shadow_validate_chunk okEnv prevBlock0.header phdr0 (chunkOf hdr0)).1
      ≠ RunResult.panicked unwrapNoneMsg :=
  ⟨placeholder_producer_identity_safe.2.1 okEnv prevBlock0.header phdr0 (chunkOf hdr0)
      { name := "alice.near" } (by decide),
   placeholder_producer_identity_safe.2.2 okEnv prevBlock0.header phdr0 (chunkOf hdr0)
      unwrapNoneMsg⟩

/-- C4 counterexample: with `save_latest_witnesses` set and the save failing,
the chunk's shadow validation aborts with the save's error and schedules no
full validation, while the identical environment with a succeeding save
completes the chunk and schedules full validation — so a save failure does
change the outcome of that chunk's shadow validation. -/
theorem save_failure_changes_outcome_cex :
    (shadow_validate_chunk envSaveFail prevBlock0.header phdr0 (chunkOf hdr0)).1
      = RunResult.err (.ext 7) ∧
    (shadow_validate_chunk envSaveFail prevBlock0.header phdr0 (chunkOf hdr0)).2.spawned
      = [] ∧
    (shadow_validate_chunk envSaveOk prevBlock0.header phdr0 (chunkOf hdr0)).1
      = RunResult.ok ∧
    (shadow_validate_chunk envSaveOk prevBlock0.header phdr0 (chunkOf hdr0)).2.spawned
      ≠ [] := by
  decide

/-- C4 (amended): the latest-witness save is attempted only when the
`save_latest_witnesses` flag is set, but it is not best-effort: when the flag
is set and the save fails, the save's error aborts that chunk's shadow
validation — the chunk attempt does not complete and no full-validation task
is scheduled. -/
theorem save_latest_witness_not_best_effort :
    (∀ (env : Env) (pbh : BlockHeader) (pch : ShardChunkHeader) (chunk : ShardChunk),
       env.save_latest_witnesses = false →
       (shadow_validate_chunk env pbh pch chunk).2.saveAttempts = []) ∧
    (∀ (env : Env) (pbh : BlockHeader) (pch : ShardChunkHeader) (chunk : ShardChunk)
       (e : Error),
       env.save_latest_witnesses = true →
       (∀ w, env.save_latest_chunk_state_witness w = .error e) →
       (shadow_validate_chunk env pbh pch chunk).1 ≠ RunResult.ok ∧
       (shadow_validate_chunk env pbh pch chunk).2.spawned = []) := by
  constructor
  · intro env pbh pch chunk hf
    simp only [shadow_validate_chunk, parseAccountId_alice]
    repeat' split
    all_goals simp_all
  · intro env pbh pch chunk e hf hs
    refine ⟨?_, ?_⟩ <;>
    · simp only [shadow_validate_chunk, parseAccountId_alice]
      repeat' split
      all_goals simp_all

/-- Witness for the amended C4 at a concrete environment and chunk. -/
theorem save_latest_witness_not_best_effort_witness :
    (shadow_validate_chunk envSaveFail prevBlock0.header phdr0 (chunkOf hdr0)).1
        ≠ RunResult.ok ∧
    (shadow_validate_chunk envSaveFail prevBlock0.header phdr0 (chunkOf hdr0)).2.spawned
        = [] :=
  save_latest_witness_not_best_effort.2 envSaveFail prevBlock0.header phdr0 (chunkOf hdr0)
    (.ext 7) rfl (fun _ => rfl)

/-- C5 counterexample: when the previous block has no chunk at the current
chunk's shard index, the previous-chunk-header lookup panics the whole
per-block call (Rust `.get(..).unwrap()` on `None`) instead of failing with a
`NotFound`-class error for that chunk only. -/
theorem prev_chunk_header_lookup_panics_cex :
    shadow_validate_block_chunks envShardGap blockShard1
      = (RunResult.panicked unwrapNoneMsg,
         { blockFetches := [1], headerFetches := [hdr1] }) := by
  decide

/-- C5 (amended): for a new chunk, the lookup of the previous block's chunk
header at the chunk's shard index succeeds when that index is within the
previous block's chunk list, and the iteration continues with the found
header; when the index is absent, the lookup panics the per-block call rather
than failing with a typed `NotFound`-class error. -/
theorem prev_chunk_header_lookup_semantics :
    (∀ (env : Env) (pb : Block) (ch : ShardChunkHeader) (rest : List ShardChunkHeader)
       (eff : Effects) (chunk : ShardChunk),
       env.getChunkCloneFromHeader ch = .ok chunk →
       pb.chunks[chunk.shard_id]? = none →
       shadow_validate_loop env pb (ch :: rest) eff
         = (RunResult.panicked unwrapNoneMsg,
            { eff with headerFetches := eff.headerFetches ++ [ch] })) ∧
    (∀ (env : Env) (pb : Block) (ch : ShardChunkHeader) (rest : List ShardChunkHeader)
       (eff : Effects) (chunk : ShardChunk) (pch : ShardChunkHeader),
       env.getChunkCloneFromHeader ch = .ok chunk →
       pb.chunks[chunk.shard_id]? = some pch →
       shadow_validate_loop env pb (ch :: rest) eff
         = (let eff1 : Effects := { eff with headerFetches := eff.headerFetches ++ [ch] }
            let r := shadow_validate_chunk env pb.header pch chunk
            let eff2 := eff1.append r.2
            match r.1 with
            | .ok => shadow_validate_loop env pb rest eff2
            | .err _ => shadow_validate_loop env pb rest
                { eff2 with failedTotal := eff2.failedTotal + 1
                            errorLogs := eff2.errorLogs ++ [chunk.shard_id] }
            | .panicked m => (.panicked m, eff2))) := by
  constructor
  · intro env pb ch rest eff chunk h1 h2
    simp [shadow_validate_loop, h1, h2]
  · intro env pb ch rest eff chunk pch h1 h2
    simp [shadow_validate_loop, h1, h2]

/-- Witness for the amended C5 at a concrete environment with shard 1 absent
from the previous block. -/
theorem prev_chunk_header_lookup_semantics_witness :
    shadow_validate_loop envShardGap prevBlockSmall [hdr1] Effects.init
      = (RunResult.panicked unwrapNoneMsg, { headerFetches := [hdr1] }) :=
  prev_chunk_header_lookup_semantics.1 envShardGap prevBlockSmall hdr1 [] Effects.init
    (chunkOf hdr1) rfl rfl

/-- C1 counterexample: `block0` has two new chunks; fetching the first chunk's
body from chain storage fails, and that fetch error escapes into the
per-block call's result (`Err`), the second chunk is never attempted (only
`hdr0` was fetched), and no failure is counted or logged — contradicting the
claim that a per-chunk fetch error aborts only that chunk and is always
converted to a logged, counted event. -/
theorem chunk_fetch_error_escapes_cex :
    hdr0.is_new_chunk block0.header.height = true ∧
    hdr1.is_new_chunk block0.header.height = true ∧
    shadow_validate_block_chunks envChunk0Missing block0
      = (RunResult.err .notFound,
         { blockFetches := [1], headerFetches := [hdr0] }) := by
  decide

/-- C1 (amended): the two per-chunk fetches behave differently.  A failure of
`get_chunk_clone_from_header` (the chunk body itself) propagates into the
per-block call's result and aborts the remaining chunks without incrementing
the failure counter; whereas an error inside `shadow_validate_chunk` — in
particular the predecessor-chunk `get_chunk` failure — is caught at the
per-chunk boundary, converted to one counter increment plus one error log
line, and every remaining chunk is still attempted. -/
theorem chunk_fetch_error_propagation :
    (∀ (env : Env) (pb : Block) (ch : ShardChunkHeader) (rest : List ShardChunkHeader)
       (eff : Effects) (e : Error),
       env.getChunkCloneFromHeader ch = .error e →
       shadow_validate_loop env pb (ch :: rest) eff
         = (RunResult.err e,
            { eff with headerFetches := eff.headerFetches ++ [ch] })) ∧
    (∀ (env : Env) (pb : Block) (ch : ShardChunkHeader) (rest : List ShardChunkHeader)
       (eff : Effects) (chunk : ShardChunk) (pch : ShardChunkHeader) (e : Error),
       env.getChunkCloneFromHeader ch = .ok chunk →
       pb.chunks[chunk.shard_id]? = some pch →
       (shadow_validate_chunk env pb.header pch chunk).1 = .err e →
       shadow_validate_loop env pb (ch :: rest) eff
         = shadow_validate_loop env pb rest
             (let eff2 := ({ eff with headerFetches := eff.headerFetches ++ [ch] } : Effects).append
                  (shadow_validate_chunk env pb.header pch chunk).2
              { eff2 with failedTotal := eff2.failedTotal + 1
                          errorLogs := eff2.errorLogs ++ [chunk.shard_id] })) := by
  constructor
  · intro env pb ch rest eff e h1
    simp [shadow_validate_loop, h1]
  · intro env pb ch rest eff chunk pch e h1 h2 h3
    simp [shadow_validate_loop, h1, h2, h3]

/-- Witness for the amended C1: the chunk-body fetch failure propagates at a
concrete input, and a concrete pre-validation failure is absorbed with the
loop continuing. -/
theorem chunk_fetch_error_propagation_witness :
    shadow_validate_loop envChunk0Missing prevBlock0 [hdr0, hdr1] Effects.init
      = (RunResult.err .notFound, { headerFetches := [hdr0] }) ∧
    shadow_validate_loop envPreValFail prevBlock0 [hdr0] Effects.init
      = shadow_validate_loop envPreValFail prevBlock0 []
          (let eff2 := ({ headerFetches := [hdr0] } : Effects).append
               (shadow_validate_chunk envPreValFail prevBlock0.header phdr0 (chunkOf hdr0)).2
           { eff2 with failedTotal := eff2.failedTotal + 1
                       errorLogs := eff2.errorLogs ++ [(chunkOf hdr0).shard_id] }) :=
  ⟨chunk_fetch_error_propagation.1 envChunk0Missing prevBlock0 hdr0 [hdr1] Effects.init
      .notFound rfl,
   chunk_fetch_error_propagation.2 envPreValFail prevBlock0 hdr0 [] Effects.init
      (chunkOf hdr0) phdr0 (.ext 9) rfl rfl (by decide)⟩

/-- The per-chunk stage performs no chunk-body fetches of its own: its effect
log always has an empty `headerFetches` component. -/
lemma shadow_validate_chunk_headerFetches (env : Env) (pbh : BlockHeader)
    (pch : ShardChunkHeader) (chunk : ShardChunk) :
    (shadow_validate_chunk env pbh pch chunk).2.headerFetches = [] := by
  simp only [shadow_validate_chunk, parseAccountId_alice]
  repeat' split
  all_goals simp

/-- The chunk-body fetches the loop performs extend the incoming log by some
prefix of the loop's input headers, in order. -/
lemma shadow_validate_loop_headerFetches_prefix (env : Env) (pb : Block) :
    ∀ (l : List ShardChunkHeader) (eff : Effects), ∃ k,
      (shadow_validate_loop env pb l eff).2.headerFetches
        = eff.headerFetches ++ l.take k := by
  intro l
  induction l with
  | nil => exact fun eff => ⟨0, by simp [shadow_validate_loop]⟩
  | cons hd tl ih =>
    intro eff
    rcases hfe : env.getChunkCloneFromHeader hd with e | chunk
    · exact ⟨1, by simp [shadow_validate_loop, hfe]⟩
    · rcases hg : pb.chunks[chunk.shard_id]? with _ | pch
      · exact ⟨1, by simp [shadow_validate_loop, hfe, hg]⟩
      · rcases hr : (shadow_validate_chunk env pb.header pch chunk).1 with _ | e | m
        · obtain ⟨k, hk⟩ := ih
            (({ eff with headerFetches := eff.headerFetches ++ [hd] } : Effects).append
              (shadow_validate_chunk env pb.header pch chunk).2)
          refine ⟨k + 1, ?_⟩
          simp only [shadow_validate_loop, hfe, hg, hr]
          rw [hk]
          simp [Effects.append, shadow_validate_chunk_headerFetches]
        · obtain ⟨k, hk⟩ := ih
            (let eff2 := ({ eff with headerFetches := eff.headerFetches ++ [hd] } : Effects).append
                (shadow_validate_chunk env pb.header pch chunk).2
             { eff2 with failedTotal := eff2.failedTotal + 1
                         errorLogs := eff2.errorLogs ++ [chunk.shard_id] })
          refine ⟨k + 1, ?_⟩
          simp only [shadow_validate_loop, hfe, hg, hr]
          rw [hk]
          simp [Effects.append, shadow_validate_chunk_headerFetches]
        · exact ⟨1, by simp [shadow_validate_loop, hfe, hg, hr, Effects.append,
            shadow_validate_chunk_headerFetches]⟩

/-- When the loop completes normally, it fetched exactly its input headers,
in order. -/
lemma shadow_validate_loop_ok_headerFetches (env : Env) (pb : Block) :
    ∀ (l : List ShardChunkHeader) (eff : Effects),
      (shadow_validate_loop env pb l eff).1 = .ok →
      (shadow_validate_loop env pb l eff).2.headerFetches = eff.headerFetches ++ l := by
  intro l
  induction l with
  | nil => intro eff _; simp [shadow_validate_loop]
  | cons hd tl ih =>
    intro eff hok
    rcases hfe : env.getChunkCloneFromHeader hd with e | chunk
    · simp [shadow_validate_loop, hfe] at hok
    · rcases hg : pb.chunks[chunk.shard_id]? with _ | pch
      · simp [shadow_validate_loop, hfe, hg] at hok
      · rcases hr : (shadow_validate_chunk env pb.header pch chunk).1 with _ | e | m
        · have hok' := hok
          simp only [shadow_validate_loop, hfe, hg, hr] at hok'
          have hrec := ih _ hok'
          simp only [shadow_validate_loop, hfe, hg, hr]
          rw [hrec]
          simp [Effects.append, shadow_validate_chunk_headerFetches]
        · have hok' := hok
          simp only [shadow_validate_loop, hfe, hg, hr] at hok'
          have hrec := ih _ hok'
          simp only [shadow_validate_loop, hfe, hg, hr]
          rw [hrec]
          simp [Effects.append, shadow_validate_chunk_headerFetches]
        · simp [shadow_validate_loop, hfe, hg, hr] at hok

/-- C6: only chunks that are new at the block's height are ever fetched for
shadow validation (carried-over chunks are skipped entirely), and when the
per-block call completes normally, the fetched chunks are exactly the block's
new chunks, in shard order. -/
theorem only_new_chunks_attempted :
    (∀ (env : Env) (block : Block) (ch : ShardChunkHeader),
       ch ∈ (shadow_validate_block_chunks env block).2.headerFetches →
       ch.is_new_chunk block.header.height = true) ∧
    (∀ (env : Env) (block : Block),
       env.shadow_chunk_validation = true →
       (shadow_validate_block_chunks env block).1 = .ok →
       (shadow_validate_block_chunks env block).2.headerFetches
         = block.chunks.filter (fun c => c.is_new_chunk block.header.height)) := by
  constructor
  · intro env block ch h
    by_cases hf : env.shadow_chunk_validation = true
    · rcases hb : env.getBlock block.header.prev_hash with e | pb
      · simp [shadow_validate_block_chunks, hf, hb] at h
      · simp only [shadow_validate_block_chunks, hf, hb, Bool.not_true, Bool.false_eq_true,
          if_false] at h
        obtain ⟨k, hk⟩ := shadow_validate_loop_headerFetches_prefix env pb
          (block.chunks.filter (fun c => c.is_new_chunk block.header.height))
          { blockFetches := [block.header.prev_hash] }
        rw [hk] at h
        simp only [List.nil_append] at h
        have hmem := List.take_subset k _ h
        exact (List.mem_filter.mp hmem).2
    · simp only [Bool.not_eq_true] at hf
      simp [shadow_validate_block_chunks, hf, Effects.init] at h
  · intro env block hf hok
    simp only [shadow_validate_block_chunks, hf, Bool.not_true, Bool.false_eq_true,
      if_false] at hok ⊢
    rcases hb : env.getBlock block.header.prev_hash with e | pb
    · simp [hb] at hok
    · simp only [hb] at hok ⊢
      have := shadow_validate_loop_ok_headerFetches env pb
        (block.chunks.filter (fun c => c.is_new_chunk block.header.height))
        { blockFetches := [block.header.prev_hash] } hok
      rw [this]
      simp

/-- Witness for C6 at a concrete environment and a block mixing one new and
one carried-over chunk. -/
theorem only_new_chunks_attempted_witness :
    (shadow_validate_block_chunks okEnv blockMixed).2.headerFetches
      = blockMixed.chunks.filter (fun c => c.is_new_chunk blockMixed.header.height) :=
  only_new_chunks_attempted.2 okEnv blockMixed rfl (by decide)

/-- C8: the decoded copy produced by the round-trip self-check is discarded
and never substituted for the original witness: replacing a successful decode
result with any other value changes nothing about the call; every spawned
full-validation task carries a witness that is an output of
`create_state_witness` (the original in-memory witness, also the one
pre-validation received); and a decode failure is fatal to that chunk's
attempt. -/
theorem decoded_witness_discarded :
    (∀ (env : Env) (d2 : EncodedChunkStateWitness → ChunkStateWitness)
       (pbh : BlockHeader) (pch : ShardChunkHeader) (chunk : ShardChunk),
       shadow_validate_chunk
         { env with decode := fun ew =>
             match env.decode ew with
             | .ok _ => .ok (d2 ew)
             | .error e => .error e } pbh pch chunk
         = shadow_validate_chunk env pbh pch chunk) ∧
    (∀ (env : Env) (pbh : BlockHeader) (pch : ShardChunkHeader) (chunk : ShardChunk)
       (t : SpawnedTask),
       t ∈ (shadow_validate_chunk env pbh pch chunk).2.spawned →
       (∃ sp, env.create_state_witness { name := "alice.near" } pbh pch chunk sp
           = .ok t.witness) ∧
       env.pre_validate_chunk_state_witness t.witness = .ok t.pre_validation) ∧
    (∀ (env : Env) (pbh : BlockHeader) (pch : ShardChunkHeader) (chunk : ShardChunk)
       (e : Error),
       (shadow_validate_chunk { env with decode := fun _ => .error e } pbh pch chunk).1
         ≠ RunResult.ok) := by
  refine ⟨?_, ?_, ?_⟩
  · intro env d2 pbh pch chunk
    simp only [shadow_validate_chunk, parseAccountId_alice]
    repeat' split
    all_goals simp_all
  · intro env pbh pch chunk t h
    simp only [shadow_validate_chunk, parseAccountId_alice] at h
    repeat' split at h
    all_goals simp_all
    all_goals exact ⟨_, by assumption⟩
  · intro env pbh pch chunk e
    simp only [shadow_validate_chunk, parseAccountId_alice]
    repeat' split
    all_goals simp

/-- Witness for C8 at a concrete environment and spawned task. -/
theorem decoded_witness_discarded_witness :
    (∃ sp, okEnv.create_state_witness { name := "alice.near" } prevBlock0.header phdr0
        (chunkOf hdr0) sp = .ok task0.witness) ∧
    okEnv.pre_validate_chunk_state_witness task0.witness = .ok task0.pre_validation :=
  decoded_witness_discarded.2.1 okEnv prevBlock0.header phdr0 (chunkOf hdr0) task0 (by decide)

end ShadowValidate
